import Mathlib

/-!
Shallow embedding of `src/src/DogTreatFocusApp.jsx` (Dog Treat Focus, a
React focus-timer component).  The component is a single-actor event
system: all mutable React state hooks become fields of `AppState`, and
each handler (`start`, `reset`, `complete`, `fail`, `donateNow`, the
tick-interval callback, the visibilitychange listener, and the idle
duration-sync effect) becomes a function `AppState → AppState` reading
the current state, which is the standard event-driven reading of the
component.  JavaScript numbers holding integers are modelled as `Int`;
timestamps (`new Date().toISOString()`) are threaded in as an opaque
`now : String` argument.
-/

/-- The `status` state hook: `"idle" | "running" | "done" | "failed"`
(line 33 of the source). -/
inductive Status where
  | idle
  | running
  | done
  | failed
deriving DecidableEq, Repr

/-- The shelter record `{ name, url }` (line 29). -/
structure Shelter where
  name : String
  url : String
deriving DecidableEq, Repr

/-- A history entry as built by `complete` (line 78) and `fail`
(line 83).  The JS field `at` is renamed `atTime` (`at` is a Lean
keyword); `earnedTreats` is `none` exactly when the JS object omits the
field, i.e. on failure entries. -/
structure HistoryEntry where
  atTime : String
  duration : Int
  success : Bool
  earnedTreats : Option Int
deriving DecidableEq, Repr

/-- The full component state: configuration hooks (lines 25-29),
session state hooks (lines 31-34) and ledger hooks (lines 36-38). -/
structure AppState where
  duration : Int
  strictMode : Bool
  treatsPerSuccess : Int
  pledgeRateCents : Int
  shelter : Shelter
  remaining : Int
  running : Bool
  status : Status
  message : String
  treats : Int
  donatedCents : Int
  history : List HistoryEntry
deriving DecidableEq, Repr

/-- Source line 8: `pad2 = (n) => String(n).padStart(2, "0")`. -/
def pad2 (n : Int) : String :=
  let str := toString n
  if str.length < 2 then "0" ++ str else str

/-- Models `(c / 100).toFixed(2)` for a nonnegative integer number of
cents `c`, as used in the `donateNow` messages (lines 90 and 92). -/
def centsString (c : Int) : String :=
  toString (c / 100) ++ "." ++ pad2 (c % 100)

/-- Source line 70: `const pledgedCents = treats * pledgeRateCents`. -/
def pledgedCents (s : AppState) : Int :=
  s.treats * s.pledgeRateCents

/-- Source line 71:
`const outstandingCents = Math.max(0, pledgedCents - donatedCents)`. -/
def outstandingCents (s : AppState) : Int :=
  max 0 (pledgedCents s - s.donatedCents)

/-- Source line 73:
`function start() { setStatus("running"); setRunning(true); setMessage(""); }`.
Note that the function itself has no guard on the current status. -/
def start (s : AppState) : AppState :=
  { s with status := Status.running, running := true, message := "" }

/-- Source line 74: `function reset() { setRunning(false); setStatus("idle");
setMessage(""); setRemaining(duration); }`. -/
def reset (s : AppState) : AppState :=
  { s with running := false, status := Status.idle, message := "",
           remaining := s.duration }

/-- Source lines 75-80, `function complete()`: stop, mark done, add
`treatsPerSuccess` treats, prepend a success entry recording the full
configured `duration`, and set the success message. -/
def complete (now : String) (s : AppState) : AppState :=
  { s with running := false, status := Status.done,
           treats := s.treats + s.treatsPerSuccess,
           history := { atTime := now, duration := s.duration,
                        success := true,
                        earnedTreats := some s.treatsPerSuccess } :: s.history,
           message := "Nice! +" ++ toString s.treatsPerSuccess ++ " 🦴 earned" }

/-- Source lines 81-85, `function fail(note="")` as captured by a
closure of some render: stop, mark failed, prepend a failure entry
recording `duration - capturedRemaining`, and set the message to
`note || "Failed"` (an empty note is falsy in JS, so it falls back to
`"Failed"`).  The JS `fail` reads `duration` and `remaining` from the
closure of the render that defined it; `duration` cannot change during
a run (there is no settings UI in the JSX, and the idle sync keeps it
in step), so only the captured `remaining`, made explicit here as
`capturedRemaining`, distinguishes one captured `fail` from another. -/
def failAt (capturedRemaining : Int) (note : String) (now : String)
    (s : AppState) : AppState :=
  { s with running := false, status := Status.failed,
           history := { atTime := now, duration := s.duration - capturedRemaining,
                        success := false, earnedTreats := none } :: s.history,
           message := if note = "" then "Failed" else note }

/-- `fail` invoked through a fresh closure, as from the Give Up button
(line 106), which is re-rendered after every state change: its captured
`remaining` is the current one. -/
def fail (note : String) (now : String) (s : AppState) : AppState :=
  failAt s.remaining note now s

/-- Source lines 59-68, the interval callback: the interval exists only
while `running`; on each tick, if `remaining <= 1` it clears the
interval, calls `complete()` and sets `remaining` to 0, else it
decrements `remaining` by 1. -/
def tick (now : String) (s : AppState) : AppState :=
  if s.running then
    if s.remaining ≤ 1 then { complete now s with remaining := 0 }
    else { s with remaining := s.remaining - 1 }
  else s

/-- Delivering `n` clock ticks in sequence. -/
def tickN : Nat → String → AppState → AppState
  | 0, _, s => s
  | n + 1, now, s => tickN n now (tick now s)

/-- Source lines 53-57, the `visibilitychange` listener for the
document-hidden transition: `if (document.hidden && running && strictMode)
fail("Left tab — tree died.")`.  The effect has dependency array
`[running, strictMode]`, so the registered listener holds the `fail`
closure of the render where those last changed — NOT the render current
when the event fires.  `capturedRemaining` is the `remaining` of that
subscription render; `strictMode` cannot change mid-run (no settings UI
in the JSX), so during a session the active listener is the one
registered when `running` flipped to true, where `remaining` still
equalled the full configured duration — `start()` does not touch
`remaining`.  Ticks re-render but never re-run this effect, so the
captured `remaining` goes stale as the session advances. -/
def onVisibilityLost (capturedRemaining : Int) (now : String)
    (s : AppState) : AppState :=
  if s.running && s.strictMode then
    failAt capturedRemaining "Left tab — tree died." now s
  else s

/-- Outcome channel of `donateNow` (lines 86-94): the two alert paths,
the confirmed donation, and the declined confirm dialog.  The external
hand-off `window.open` happens only after both guards, i.e. exactly on
the `donated` and `declined` outcomes. -/
inductive DonateOutcome where
  | configError
  | nothingToDonate
  | donated
  | declined
deriving DecidableEq, Repr

/-- Source lines 86-94, `function donateNow()`: guard on a missing or
placeholder (`"https://"`) shelter URL, then on `outstandingCents <= 0`;
otherwise open the URL and, only if the user confirms, add the
outstanding cents to `donatedCents` and set the donation message.  The
confirm-dialog answer is the `confirmed` argument. -/
def donateNow (confirmed : Bool) (s : AppState) : AppState × DonateOutcome :=
  if s.shelter.url = "" || s.shelter.url = "https://" then
    (s, DonateOutcome.configError)
  else if outstandingCents s ≤ 0 then
    (s, DonateOutcome.nothingToDonate)
  else if confirmed then
    ({ s with donatedCents := s.donatedCents + outstandingCents s,
              message := "Marked $" ++ centsString (outstandingCents s)
                           ++ " donated 🐶❤️" },
     DonateOutcome.donated)
  else
    (s, DonateOutcome.declined)

/-- Source lines 106-107, the primary button dispatch: while `running`
the button is Give Up (`fail("Stopped early")`); otherwise it invokes
`start` when `status === "idle"` and `reset` in every other status. -/
def primaryClick (now : String) (s : AppState) : AppState :=
  if s.running then fail "Stopped early" now s
  else if s.status = Status.idle then start s
  else reset s

/-- Changing the duration setting (`setDuration`, line 25) combined with
the sync effect on line 51:
`useEffect(() => { if (status === "idle") setRemaining(duration); }, [duration, status])`,
which re-establishes `remaining = duration` immediately when the
duration changes while the status is idle. -/
def setDurationAction (d : Int) (s : AppState) : AppState :=
  let s1 := { s with duration := d }
  if s1.status = Status.idle then { s1 with remaining := d } else s1

/-- The component state right after mount, parameterised by the values
loaded from the settings store (lines 25-38): the session hooks start as
`remaining = duration` (line 31), `running = false`, `status = "idle"`,
`message = ""`. -/
def mkInitState (duration : Int) (strictMode : Bool)
    (treatsPerSuccess pledgeRateCents : Int) (shelter : Shelter)
    (treats donatedCents : Int) (history : List HistoryEntry) : AppState :=
  { duration := duration, strictMode := strictMode,
    treatsPerSuccess := treatsPerSuccess, pledgeRateCents := pledgeRateCents,
    shelter := shelter, remaining := duration, running := false,
    status := Status.idle, message := "", treats := treats,
    donatedCents := donatedCents, history := history }

/-- The initial state when nothing is stored, using the fallback values
of the `load` calls on lines 25-38. -/
def initState : AppState :=
  mkInitState (25 * 60) true 5 2
    { name := "Local Dog Shelter", url := "https://" } 0 0 []

/-- The ledger invariant of the spec data model: the donated cents never
exceed the pledged cents. -/
def LedgerInvariant (s : AppState) : Prop :=
  s.donatedCents ≤ pledgedCents s

/-! ### Sample states used by witnesses and counterexamples -/

/-- An idle just-configured state with a three-second duration. -/
def idleSample : AppState :=
  mkInitState 3 true 5 2 { name := "S", url := "https://example.org" } 0 0 []

/-- An idle state with the configuration of the C2 scenario. -/
def c2State : AppState :=
  mkInitState 100 false 5 2 { name := "S", url := "https://example.org" } 0 0 []

/-- A mid-session running state: 100-second session, 37 seconds elapsed. -/
def runningSample : AppState :=
  { duration := 100, strictMode := true, treatsPerSuccess := 5,
    pledgeRateCents := 2,
    shelter := { name := "S", url := "https://example.org" },
    remaining := 63, running := true, status := Status.running,
    message := "", treats := 4, donatedCents := 3, history := [] }

/-- A completed (done) state, used to probe `start` outside idle. -/
def doneSample : AppState :=
  { runningSample with running := false, status := Status.done,
                       remaining := 0, treats := 9 }

/-! ### Helper lemmas -/

/-- Delivering one more tick peels off at the end as well. -/
theorem tickN_succ (n : Nat) (now : String) (s : AppState) :
    tickN (n + 1) now s = tick now (tickN n now s) := by
  induction n generalizing s with
  | zero => rfl
  | succ m ih =>
    show tickN (m + 1) now (tick now s) = tick now (tickN (m + 1) now s)
    rw [ih (tick now s)]
    rfl

/-- While strictly more ticks remain than are delivered, ticks only
decrement `remaining` and leave every other field (and `running`)
unchanged. -/
theorem tickN_decrements (now : String) :
    ∀ (k : Nat) (s : AppState), s.running = true → (k : Int) < s.remaining →
      tickN k now s = { s with remaining := s.remaining - k } := by
  intro k
  induction k with
  | zero =>
    intro s _ _
    simp [tickN]
  | succ m ih =>
    intro s hrun hlt
    have h1 : ¬ s.remaining ≤ 1 := by
      push_cast at hlt
      omega
    have hstep : tick now s = { s with remaining := s.remaining - 1 } := by
      simp [tick, hrun, h1]
    show tickN m now (tick now s) = _
    rw [hstep]
    rw [ih { s with remaining := s.remaining - 1 } hrun (by push_cast at hlt ⊢; omega)]
    have : s.remaining - 1 - (m : Int) = s.remaining - ((m : Nat) + 1 : Nat) := by
      push_cast
      ring
    simp [this]

/-- In every reachable state the `running` flag and `status = "running"`
coincide; this predicate records that coupling. -/
def RunSync (s : AppState) : Prop :=
  s.running = true ↔ s.status = Status.running

theorem runSync_mkInitState (d : Int) (st : Bool) (tps rate : Int)
    (sh : Shelter) (t dc : Int) (h : List HistoryEntry) :
    RunSync (mkInitState d st tps rate sh t dc h) := by
  simp [RunSync, mkInitState]

theorem runSync_preserved (s : AppState) (d captured : Int)
    (note now : String) (confirmed : Bool) (hs : RunSync s) :
    RunSync (start s) ∧ RunSync (reset s) ∧ RunSync (complete now s) ∧
    RunSync (fail note now s) ∧ RunSync (tick now s) ∧
    RunSync (onVisibilityLost captured now s) ∧
    RunSync (donateNow confirmed s).1 ∧
    RunSync (setDurationAction d s) := by
  unfold RunSync at hs ⊢
  refine ⟨by simp [start], by simp [reset], by simp [complete],
          by simp [fail, failAt], ?_, ?_, ?_, ?_⟩
  · unfold tick
    split
    · split
      · simp [complete]
      · exact hs
    · exact hs
  · unfold onVisibilityLost
    split <;> simp [failAt, hs]
  · unfold donateNow
    split
    · exact hs
    · split
      · exact hs
      · split
        · simpa using hs
        · exact hs
  · simp only [setDurationAction]
    split <;> simpa using hs

/-! ### Claim theorems -/

/-- Claim C8: calling `reset` from any state never changes `treats`,
`donatedCents` or `history`; it sets `status` to idle and `remaining` to
the configured duration. -/
theorem c8_reset_frame (s : AppState) :
    (reset s).treats = s.treats ∧ (reset s).donatedCents = s.donatedCents ∧
    (reset s).history = s.history ∧ (reset s).status = Status.idle ∧
    (reset s).remaining = s.duration := by
  simp [reset]

/-- Claim C3, evaluated at the failing input: in a running 100-second
session with 37 seconds elapsed (remaining 63), the give-up path and the
completion path do behave as claimed (entry duration 37 and full
duration respectively, treats untouched), but a strict-mode visibility
failure goes through the listener registered at session start, whose
captured `remaining` is the full duration, so its history entry records
duration `100 - 100 = 0` instead of the `duration - remaining = 37` of
the moment of failure. -/
theorem c3_stale_visibility_elapsed :
    runningSample.duration - runningSample.remaining = 37 ∧
    (fail "" "t" runningSample).history.map HistoryEntry.duration = [37] ∧
    (fail "" "t" runningSample).treats = runningSample.treats ∧
    (complete "t" runningSample).history.map HistoryEntry.duration =
      [runningSample.duration] ∧
    (onVisibilityLost runningSample.duration "t" runningSample).history.map
      HistoryEntry.duration = [0] ∧
    (onVisibilityLost runningSample.duration "t" runningSample).treats =
      runningSample.treats := by
  decide

/-- Claim C4, evaluated at the failing input: in the same mid-session
state, the strict-mode visibility failure does reach status failed with
that message, but the resulting state is NOT the state of
`giveUp("Left tab — tree died.")` at that moment — the history entries
record duration 0 (stale captured `remaining`) versus 37.  The no-op
half of the claim holds: on a concrete not-running state and on a
concrete strict-mode-off state the listener changes nothing. -/
theorem c4_stale_visibility_divergence :
    onVisibilityLost runningSample.duration "t" runningSample ≠
      fail "Left tab — tree died." "t" runningSample ∧
    (onVisibilityLost runningSample.duration "t" runningSample).status =
      Status.failed ∧
    (onVisibilityLost runningSample.duration "t" runningSample).message =
      "Left tab — tree died." ∧
    (onVisibilityLost runningSample.duration "t" runningSample).history.map
      HistoryEntry.duration = [0] ∧
    (fail "Left tab — tree died." "t" runningSample).history.map
      HistoryEntry.duration = [37] ∧
    onVisibilityLost runningSample.duration "t" doneSample = doneSample ∧
    onVisibilityLost c2State.duration "t" c2State = c2State := by
  decide

/-- Claim C6: `donateNow` reports the configuration error and returns
the state untouched when the shelter URL is empty or still the
placeholder `"https://"`; past that guard it reports the
nothing-to-donate error and returns the state untouched when the
outstanding cents are not positive.  In both cases the returned state is
exactly the input state, and the outcome is neither `donated` nor
`declined`, the two branches on which the external hand-off
(`window.open`) occurs. -/
theorem c6_donate_guards (s : AppState) (confirmed : Bool) :
    ((s.shelter.url = "" ∨ s.shelter.url = "https://") →
      donateNow confirmed s = (s, DonateOutcome.configError)) ∧
    (s.shelter.url ≠ "" → s.shelter.url ≠ "https://" → outstandingCents s ≤ 0 →
      donateNow confirmed s = (s, DonateOutcome.nothingToDonate)) := by
  constructor
  · intro h
    rcases h with h | h <;> simp [donateNow, h]
  · intro h1 h2 h3
    simp [donateNow, h1, h2, h3]

/-- Witness for C6: the placeholder URL of the pristine initial state
triggers the configuration error, and a configured URL with a zero
outstanding pledge triggers the nothing-to-donate error. -/
theorem c6_donate_guards_witness :
    donateNow true initState = (initState, DonateOutcome.configError) ∧
    donateNow true idleSample = (idleSample, DonateOutcome.nothingToDonate) :=
  ⟨(c6_donate_guards initState true).1 (Or.inr rfl),
   (c6_donate_guards idleSample true).2 (by decide) (by decide) (by decide)⟩

/-- Claim C7: `donateNow` never decreases `donatedCents`; when the
guards pass (configured URL, positive outstanding), confirming adds
exactly the outstanding cents read at entry and the recomputed
outstanding becomes exactly 0, while declining returns the state
unchanged with a non-error outcome. -/
theorem c7_donation_monotonic (s : AppState) (confirmed : Bool) :
    s.donatedCents ≤ (donateNow confirmed s).1.donatedCents ∧
    (s.shelter.url ≠ "" → s.shelter.url ≠ "https://" → 0 < outstandingCents s →
      (donateNow true s).1.donatedCents = s.donatedCents + outstandingCents s ∧
      outstandingCents (donateNow true s).1 = 0 ∧
      donateNow false s = (s, DonateOutcome.declined)) := by
  have hout : 0 ≤ outstandingCents s := le_max_left 0 _
  constructor
  · unfold donateNow
    split
    · simp
    · split
      · simp
      · split
        · simp
          omega
        · simp
  · intro h1 h2 h3
    have hpos : ¬ outstandingCents s ≤ 0 := by omega
    have hmax : outstandingCents s = pledgedCents s - s.donatedCents := by
      unfold outstandingCents at h3 ⊢
      rcases max_cases 0 (pledgedCents s - s.donatedCents) with ⟨he, hle⟩ | ⟨he, _⟩
      · omega
      · exact he
    refine ⟨by simp [donateNow, h1, h2, hpos], ?_, by simp [donateNow, h1, h2, hpos]⟩
    have hstate : (donateNow true s).1 =
        { s with donatedCents := s.donatedCents + outstandingCents s,
                 message := "Marked $" ++ centsString (outstandingCents s)
                              ++ " donated 🐶❤️" } := by
      simp [donateNow, h1, h2, hpos]
    rw [hstate]
    unfold outstandingCents pledgedCents at hmax ⊢
    simp only [pledgedCents]
    omega

/-- Witness for C7 at a concrete state with a configured shelter URL and
five outstanding cents. -/
theorem c7_donation_monotonic_witness :
    runningSample.donatedCents ≤ (donateNow true runningSample).1.donatedCents ∧
    (donateNow true runningSample).1.donatedCents =
      runningSample.donatedCents + outstandingCents runningSample ∧
    outstandingCents (donateNow true runningSample).1 = 0 ∧
    donateNow false runningSample = (runningSample, DonateOutcome.declined) := by
  have h := c7_donation_monotonic runningSample true
  have h2 := h.2 (by decide) (by decide) (by decide)
  exact ⟨h.1, h2.1, h2.2.1, h2.2.2⟩

/-- Claim C9: the ledger invariant `donatedCents ≤ pledgedCents` holds
in the pristine initial state (donatedCents = 0) and, with a
nonnegative pledge rate and treats-per-success held fixed, is preserved
by every operation: completion, failure, reset, start, clock ticks, the
visibility trigger, and `donateNow` in all its outcomes. -/
theorem c9_ledger_invariant :
    LedgerInvariant initState ∧
    ∀ (s : AppState) (note now : String) (confirmed : Bool) (captured : Int),
      0 ≤ s.pledgeRateCents → 0 ≤ s.treatsPerSuccess → LedgerInvariant s →
      LedgerInvariant (complete now s) ∧ LedgerInvariant (fail note now s) ∧
      LedgerInvariant (reset s) ∧ LedgerInvariant (start s) ∧
      LedgerInvariant (tick now s) ∧
      LedgerInvariant (onVisibilityLost captured now s) ∧
      LedgerInvariant (donateNow confirmed s).1 := by
  constructor
  · unfold LedgerInvariant pledgedCents initState mkInitState
    norm_num
  · intro s note now confirmed captured hrate htps hinv
    unfold LedgerInvariant pledgedCents at hinv ⊢
    have hgain : 0 ≤ s.treatsPerSuccess * s.pledgeRateCents :=
      mul_nonneg htps hrate
    have hcomplete : s.donatedCents ≤ (s.treats + s.treatsPerSuccess) * s.pledgeRateCents := by
      nlinarith
    refine ⟨by simpa [complete] using hcomplete,
            by simpa [fail, failAt] using hinv,
            by simpa [reset] using hinv, by simpa [start] using hinv,
            ?_, ?_, ?_⟩
    · unfold tick
      split
      · split
        · simpa [complete] using hcomplete
        · simpa using hinv
      · exact hinv
    · unfold onVisibilityLost
      split
      · simpa [failAt] using hinv
      · exact hinv
    · unfold donateNow
      split
      · exact hinv
      · split
        · exact hinv
        · split
          · simp only []
            have : 0 ≤ outstandingCents s := le_max_left 0 _
            have hle : s.donatedCents + outstandingCents s ≤
                s.treats * s.pledgeRateCents := by
              unfold outstandingCents pledgedCents
              rcases max_cases 0 (s.treats * s.pledgeRateCents - s.donatedCents)
                with ⟨he, _⟩ | ⟨he, _⟩ <;> omega
            simpa using hle
          · exact hinv

/-- Witness for C9: the invariant holds at the initial state, and the
preservation clause applies at a concrete state with donated 3 of 8
pledged cents. -/
theorem c9_ledger_invariant_witness :
    LedgerInvariant initState ∧ LedgerInvariant (complete "t" runningSample) ∧
    LedgerInvariant (donateNow true runningSample).1 := by
  have h := c9_ledger_invariant
  have h2 := h.2 runningSample "x" "t" true 100 (by decide) (by decide)
    (by unfold LedgerInvariant pledgedCents; decide)
  exact ⟨h.1, h2.1, h2.2.2.2.2.2.2⟩

/-- Claim C10: whenever the status is idle, `remaining` equals the
configured duration — it holds at app start for any loaded settings, is
restored by `reset`, and is re-established immediately by a duration
change performed while idle. -/
theorem c10_idle_remaining_sync (s : AppState) (d dur : Int) (st : Bool)
    (tps rate tr dc : Int) (sh : Shelter) (h : List HistoryEntry) :
    (mkInitState dur st tps rate sh tr dc h).status = Status.idle ∧
    (mkInitState dur st tps rate sh tr dc h).remaining =
      (mkInitState dur st tps rate sh tr dc h).duration ∧
    (reset s).status = Status.idle ∧
    (reset s).remaining = (reset s).duration ∧
    (s.status = Status.idle →
      (setDurationAction d s).status = Status.idle ∧
      (setDurationAction d s).duration = d ∧
      (setDurationAction d s).remaining = (setDurationAction d s).duration) := by
  refine ⟨rfl, rfl, rfl, rfl, ?_⟩
  intro hidle
  simp [setDurationAction, hidle]

/-- Witness for C10: a concrete mount state, a reset from a done state,
and a duration change on a concrete idle state. -/
theorem c10_idle_remaining_sync_witness :
    (mkInitState 7 true 1 1 { name := "a", url := "b" } 0 0 []).remaining =
      (mkInitState 7 true 1 1 { name := "a", url := "b" } 0 0 []).duration ∧
    (reset doneSample).remaining = (reset doneSample).duration ∧
    (setDurationAction 42 idleSample).remaining =
      (setDurationAction 42 idleSample).duration := by
  have h1 := c10_idle_remaining_sync doneSample 42 7 true 1 1 0 0
    { name := "a", url := "b" } []
  have h2 := c10_idle_remaining_sync idleSample 42 7 true 1 1 0 0
    { name := "a", url := "b" } []
  exact ⟨h1.2.1, h1.2.2.2.1, (h2.2.2.2.2 rfl).2.2⟩

/-- Claim C1: from an idle state (so `remaining = duration`) with
configured duration `D > 0`, starting a session and delivering exactly
`D` ticks yields status done, `remaining = 0`, `treats` increased by
exactly `treatsPerSuccess`, and exactly one new history entry prepended
with success true and duration `D`. -/
theorem c1_tick_to_zero (s : AppState) (D : Nat) (now : String)
    (hD : 0 < D) (hidle : s.status = Status.idle)
    (hrem : s.remaining = s.duration) (hdur : s.duration = (D : Int)) :
    (tickN D now (start s)).status = Status.done ∧
    (tickN D now (start s)).remaining = 0 ∧
    (tickN D now (start s)).treats = s.treats + s.treatsPerSuccess ∧
    (tickN D now (start s)).history =
      { atTime := now, duration := (D : Int), success := true,
        earnedTreats := some s.treatsPerSuccess } :: s.history := by
  obtain ⟨m, rfl⟩ : ∃ m, D = m + 1 := ⟨D - 1, by omega⟩
  rw [tickN_succ]
  have e : (start s).remaining = s.remaining := rfl
  have hlt : ((m : Nat) : Int) < (start s).remaining := by
    rw [e, hrem, hdur]
    exact_mod_cast Nat.lt_succ_self m
  rw [tickN_decrements now m (start s) rfl hlt]
  have hr1 : (start s).remaining - (m : Int) = 1 := by
    rw [e, hrem, hdur]
    push_cast
    ring
  rw [hr1]
  refine ⟨?_, ?_, ?_, ?_⟩ <;> simp [tick, complete, start, hdur]

/-- Witness for C1 with a three-second session. -/
theorem c1_tick_to_zero_witness :
    (tickN 3 "t" (start idleSample)).status = Status.done ∧
    (tickN 3 "t" (start idleSample)).remaining = 0 ∧
    (tickN 3 "t" (start idleSample)).treats =
      idleSample.treats + idleSample.treatsPerSuccess ∧
    (tickN 3 "t" (start idleSample)).history =
      { atTime := "t", duration := ((3 : Nat) : Int), success := true,
        earnedTreats := some idleSample.treatsPerSuccess } :: idleSample.history :=
  c1_tick_to_zero idleSample 3 "t" (by decide) rfl rfl (by decide)

/-- Counterexample to claim C2 as stated: with `D = 100` and 37 ticks
delivered, `remaining` is 63 at the moment of giving up, so the code
records `duration - remaining = 37` in the new history entry, not 63;
`treats` stays 0. -/
theorem c2_counterexample :
    (fail "" "t" (tickN 37 "t" (start c2State))).history.map HistoryEntry.duration ≠ [63] ∧
    (fail "" "t" (tickN 37 "t" (start c2State))).history =
      [{ atTime := "t", duration := 37, success := false, earnedTreats := none }] ∧
    (fail "" "t" (tickN 37 "t" (start c2State))).treats = 0 := by
  have h1 := tickN_decrements "t" 37 (start c2State) rfl (by decide)
  rw [h1]
  refine ⟨?_, ?_, ?_⟩ <;> simp [fail, failAt, start, c2State, mkInitState]

/-- Claim C2 amended: starting with `D = 100`, delivering 37 ticks, then
giving up yields a history entry with success false and duration 37
(`D` minus the `remaining` of 63, the elapsed portion), and leaves
`treats` unchanged. -/
theorem c2_early_failure (s : AppState) (now : String)
    (hidle : s.status = Status.idle) (hrem : s.remaining = s.duration)
    (hdur : s.duration = 100) :
    (fail "" now (tickN 37 now (start s))).history =
      { atTime := now, duration := 37, success := false, earnedTreats := none }
        :: s.history ∧
    (fail "" now (tickN 37 now (start s))).treats = s.treats := by
  have e : (start s).remaining = s.remaining := rfl
  have h1 := tickN_decrements now 37 (start s) rfl
    (by rw [e, hrem, hdur]; norm_num)
  rw [h1]
  constructor <;> simp [fail, failAt, start, hrem, hdur]

/-- Witness for the amended C2 at a concrete idle 100-second state. -/
theorem c2_early_failure_witness :
    (fail "" "t" (tickN 37 "t" (start c2State))).history =
      { atTime := "t", duration := 37, success := false, earnedTreats := none }
        :: c2State.history ∧
    (fail "" "t" (tickN 37 "t" (start c2State))).treats = c2State.treats :=
  c2_early_failure c2State "t" rfl rfl rfl

/-- Counterexample to claim C5 as stated: `start` called on a concrete
done state is not a no-op and is not rejected — it unconditionally
begins a new countdown (status running, running flag set). -/
theorem c5_counterexample :
    doneSample.status = Status.done ∧ doneSample.status ≠ Status.idle ∧
    start doneSample ≠ doneSample ∧
    (start doneSample).status = Status.running ∧
    (start doneSample).running = true := by
  refine ⟨rfl, by decide, by decide, rfl, rfl⟩

/-- Claim C5 amended: the raw `start` function performs no guard and
unconditionally begins a countdown from any state; the guard lives in
the UI dispatch (line 107), which from a non-idle state invokes `reset`
(or Give Up while running) and never `start`, so a new countdown is
never begun from a non-idle state through the interface. -/
theorem c5_guarded_dispatch (s : AppState) (now : String)
    (h : s.status ≠ Status.idle) :
    (start s).status = Status.running ∧ (start s).running = true ∧
    (s.running = false → primaryClick now s = reset s) ∧
    (s.running = true → primaryClick now s = fail "Stopped early" now s) := by
  refine ⟨rfl, rfl, ?_, ?_⟩ <;> intro hr <;> simp [primaryClick, hr, h]

/-- Witness for the amended C5 at a concrete done state. -/
theorem c5_guarded_dispatch_witness :
    (start doneSample).status = Status.running ∧
    primaryClick "t" doneSample = reset doneSample := by
  have h := c5_guarded_dispatch doneSample "t" (by decide)
  exact ⟨h.1, h.2.2.1 rfl⟩
